import Mathlib

/-!
Verification development for pget.py, a podcast feed poller and downloader.

The Python source is shallowly embedded: pure fragments become Lean
functions; filesystem state is a list of existing paths; the ledger
(`downloaded.ini`, a configparser-backed store) is a list of sections;
exceptions that escape a function are modelled with `Except`/sum results.
Python floats that only ever hold whole seconds or byte counts are
modelled as `Int`/`Nat`.  `email.utils.parsedate` composed with
`time.mktime` is treated as an external collaborator and passed in as a
function `String → Option Int` (`none` models `parsedate` returning
`None` on an unparseable date, which makes `mktime`, or a sort
comparison on the keys, raise `TypeError`).
-/

namespace Pget

/-- Model of `os.path.join(p, f)` for a relative name `f`. -/
def pathJoin (p f : String) : String := p ++ "/" ++ f

/-- Characters of the last `/`-separated segment, i.e. the model of
Python `u.split('/')[-1]` used for deriving a filename from a URL. -/
def lastSegmentList (cs : List Char) : List Char :=
  cs.foldl (fun acc c => if c = '/' then [] else acc ++ [c]) []

/-- Model of `u.split('/')[-1]`. -/
def lastSegment (u : String) : String := String.mk (lastSegmentList u.data)

/-- `FeedItem.__init__` (pget.py:54-61).  `url` and `mtype` come from
`media.get('url')` / `media.get('type')`, which return `None` when the
attribute is absent, hence `Option`. -/
structure FeedItem where
  title : String
  descr : String
  pubdate : String
  guid : Option String
  url : Option String
  mtype : Option String
deriving Repr, DecidableEq

/-- `FeedItem.getfilename` (pget.py:66-67): `self.url.split('/')[-1]`.
`none` models the `AttributeError` raised when `self.url` is `None`. -/
def FeedItem.getfilename (it : FeedItem) : Option String :=
  it.url.map lastSegment

/-- `FeedItem.shoulddownload` (pget.py:63-64):
`not os.path.exists(os.path.join(path, fname))`, with the filesystem
modelled as the list `files` of existing paths. -/
def FeedItem.shoulddownload (fname path : String) (files : List String) : Bool :=
  !(decide (pathJoin path fname ∈ files))

/-- Model of an HTTP response to `urlopen` on a media URL: status code,
the `Content-Length` header (`none` = header missing, making
`float(None)` raise), and the sizes of the successive `resp.read`
chunks until exhaustion. -/
structure Response where
  code : Nat
  contentLength : Option Nat
  chunks : List Nat
deriving Repr, DecidableEq

/-- Total number of bytes streamed: the running `totalsize` of
`FeedItem.download` at the end of the read loop (pget.py:94-109). -/
def streamTotal (chunks : List Nat) : Nat :=
  chunks.foldl (fun a c => a + c) 0

/-- Create a file: `open(p, 'wb')` creates `p` if absent (truncating an
existing file leaves the set of existing paths unchanged). -/
def addFile (files : List String) (p : String) : List String :=
  if p ∈ files then files else p :: files

/-- Observable outcome of `FeedItem.download`: resulting filesystem,
number of network requests issued, and user-visible messages (the
periodic progress lines of pget.py:102-108 are elided; they touch
neither the filesystem nor the control flow). -/
structure DownloadOut where
  files : List String
  netCalls : Nat
  msgs : List String
deriving Repr, DecidableEq

/-- `FeedItem.download` (pget.py:69-119).  All exceptions are caught by
the `except` clause (pget.py:114-116), which prints two error lines and
returns, so the function never propagates a failure.  The branches, in
source order: `AttributeError` from `getfilename` when `url is None`;
the already-downloaded early return; the non-200 check; `float(None)`
when `Content-Length` is missing; the chunked write into
`<name>.downloading`; and the `totalsize == length` guard around
`os.rename` (pget.py:110-111). -/
def FeedItem.download (it : FeedItem) (path : String) (verbose tell : Bool)
    (resp : Response) (files : List String) : DownloadOut :=
  match it.getfilename with
  | none =>
      { files := files, netCalls := 0,
        msgs := ["[pget] Error downloading " ++ it.title] }
  | some fn =>
      let fname := pathJoin path fn
      if FeedItem.shoulddownload fn path files then
        if resp.code ≠ 200 then
          { files := files, netCalls := 1,
            msgs := ["[pget] Error downloading " ++ it.title] }
        else
          match resp.contentLength with
          | none =>
              { files := files, netCalls := 1,
                msgs := ["[pget] Error downloading " ++ it.title] }
          | some length =>
              let tmpfname := pathJoin path (fn ++ ".downloading")
              let totalsize := streamTotal resp.chunks
              let files1 := addFile files tmpfname
              if totalsize = length then
                { files := addFile (files1.erase tmpfname) fname,
                  netCalls := 1,
                  msgs := if tell then [fn ++ " downloaded"] else [] }
              else
                { files := files1, netCalls := 1, msgs := [] }
      else
        { files := files, netCalls := 0,
          msgs := if verbose then [fn ++ " already downloaded"] else [] }

/-- `DownloadedFile.__init__` (pget.py:209-215).  `timedelta` is set to
`0` at construction and never reassigned anywhere in the program. -/
structure DownloadedFile where
  title : String
  path : String
  time : Int
  timedelta : Int
deriving Repr, DecidableEq

/-- `DownloadedFile.__eq__` (pget.py:217-220), kept line for line: the
first assignment to `ret` (title and path comparison) is immediately
overwritten by the second (time-window comparison), so only the latter
is returned. -/
def DownloadedFile.eq (self other : DownloadedFile) : Bool :=
  let ret := self.title == other.title && self.path == other.path
  let ret := decide (|self.time - other.time| ≤ self.timedelta + other.timedelta)
  ret

/-- `DownloadedFile.isinlist` (pget.py:222-226): linear scan using
`__eq__`. -/
def DownloadedFile.isinlist (self : DownloadedFile) (l : List DownloadedFile) : Bool :=
  l.any (fun df => DownloadedFile.eq self df)

/-- A namespaced `content` child of an `item` element: its namespace
URI, and its `url` / `type` attributes (`Element.get` yields `None`
when an attribute is absent). -/
structure MediaElem where
  ns : String
  url : Option String
  mtype : Option String
deriving Repr, DecidableEq

/-- An `item` element as seen by `Feed.parsexml` (pget.py:173-203):
each `find` result is `none` when the child element is absent,
otherwise the text of the element. -/
structure XItem where
  title : Option String
  descr : Option String
  pubDate : Option String
  guid : Option String
  contents : List MediaElem
deriving Repr, DecidableEq

/-- `item.find('{%s}content' % medians)`: the first `content` child
whose namespace URI equals `ns`. -/
def findContent (ns : String) (elems : List MediaElem) : Option MediaElem :=
  elems.find? (fun e => e.ns == ns)

/-- One iteration of the item loop of `Feed.parsexml` (pget.py:173-203):
defaults for missing `title` / `description` / `pubDate`, the `media`
namespace looked up in `nsmap` with `''` as fallback, and a `FeedItem`
appended only when the namespaced `content` element is found.  `none`
means the item never becomes a `FeedItem`. -/
def parseItem (feedUrl : String) (nsmap : List (String × String))
    (it : XItem) : Option FeedItem :=
  let title := it.title.getD (feedUrl ++ "(Unknown Title)")
  let descr := it.descr.getD ""
  let pubdate := it.pubDate.getD "Thu, 01 Jan 1970 02:00:00"
  let guid := it.guid
  let medians := (nsmap.lookup "media").getD ""
  match findContent medians it.contents with
  | none => none
  | some m => some ⟨title, descr, pubdate, guid, m.url, m.mtype⟩

/-- The item-collection phase of `Feed.parsexml`: `self.items` right
after the `for item in items` loop (pget.py:173-203), before the sort. -/
def parsexmlItems (feedUrl : String) (nsmap : List (String × String))
    (xitems : List XItem) : List FeedItem :=
  xitems.filterMap (parseItem feedUrl nsmap)

/-- The sort phase of `Feed.parsexml` (pget.py:205-207):
`sorted(self.items, key=lambda x: parsedate(x.pubdate))[::-1]`.
When some `pubdate` fails to parse its sort key is `None`; with at
least two items CPython timsort compares every element at least once,
and any comparison against `None` raises an uncaught `TypeError`
(`.error ()`).  With fewer than two items `sorted` performs no
comparison and succeeds. -/
def sortItemsByDate (pd : String → Option Int) (items : List FeedItem) :
    Except Unit (List FeedItem) :=
  if 2 ≤ items.length && items.any (fun f => (pd f.pubdate).isNone) then
    .error ()
  else
    .ok ((items.mergeSort
      (fun a b => decide ((pd a.pubdate).getD 0 ≤ (pd b.pubdate).getD 0))).reverse)

/-- `Feed.getnewer` (pget.py:132-135).  The comprehension evaluates
`time.mktime(parsedate(f.pubdate))` for each item; `parsedate`
returning `None` makes `mktime` raise an uncaught `TypeError`
(`.error ()`).  `days` is `float(self.days)` in the source; here an
integer day count. -/
def getnewer (pd : String → Option Int) (days now : Int)
    (items : List FeedItem) : Except Unit (List FeedItem) :=
  let secs := days * 24 * 60 * 60
  let treshold := now - secs
  if items.any (fun f => (pd f.pubdate).isNone) then .error ()
  else .ok (items.filter (fun f => decide (treshold < (pd f.pubdate).getD 0)))

/-- One configured feed, with its XML already fetched and decomposed:
`Feed.__init__` fields (pget.py:122-130) plus the parse-relevant view
of the fetched document. -/
structure FeedSpec where
  url : String
  nsmap : List (String × String)
  xitems : List XItem
  days : Int
deriving Repr, DecidableEq

/-- The per-feed pipeline of the main poll loop: `Feed.poll` builds and
sorts the items (pget.py:137-139, 163-207) and `App.handlefeed` starts
by calling `feed.getnewer()` (pget.py:340-341).  Neither `poll` nor the
main loop guards these calls with a handler, so an error here is the
error of the whole iteration. -/
def processFeed (pd : String → Option Int) (now : Int) (fs : FeedSpec) :
    Except Unit (List FeedItem) := do
  let items := parsexmlItems fs.url fs.nsmap fs.xitems
  let sorted ← sortItemsByDate pd items
  getnewer pd fs.days now sorted

/-- The `for secstr in app.pconfig.sections()` poll loop of `__main__`
(pget.py:395-402), restricted to the date-handling pipeline: feeds are
processed in order and an uncaught exception aborts the whole loop (and
with it the run), leaving the remaining feeds unprocessed. -/
def pollRun (pd : String → Option Int) (now : Int) :
    List FeedSpec → Except Unit (List (List FeedItem))
  | [] => .ok []
  | f :: rest =>
      match processFeed pd now f with
      | .error e => .error e
      | .ok items =>
          match pollRun pd now rest with
          | .error e => .error e
          | .ok out => .ok (items :: out)

/-- The `App` state touched by `App.handlefeed` (pget.py:340-364): the
in-memory `downloaded` cache, the `dconfig` sections of the ledger
(title, path, time), the number of rewrites of the `downloaded.ini`
backing file, the filesystem, and the number of network requests. -/
structure AppSt where
  downloaded : List DownloadedFile
  dconfig : List (String × String × Int)
  writes : Nat
  files : List String
  net : Nat
deriving Repr, DecidableEq

/-- `App.addtodconfig` (pget.py:302-307): `self.dconfig[dfile.title] =
{...}` — configparser assignment removes an existing section of that
name and re-adds it with the new values. -/
def addtodconfig (cfg : List (String × String × Int)) (df : DownloadedFile) :
    List (String × String × Int) :=
  (cfg.filter (fun e => !(e.1 == df.title))) ++ [(df.title, df.path, df.time)]

/-- The body of the `for f in newer` loop of `App.handlefeed`
(pget.py:349-364): derive the filename and destination, build a
`DownloadedFile` with the parsed publish time, and unless the tolerant
`isinlist` check finds it in the cache, call `download`, append to the
cache, update `dconfig` and rewrite the backing file — all
unconditionally after `download` returns, which it always does
regardless of outcome.  `.error ()` models the uncaught exceptions of
the body itself: `AttributeError` from `getfilename` when the URL is
absent, `TypeError` from `mktime(parsedate(...))` on an unparseable
date. -/
def handleItem (pd : String → Option Int) (verbose tell : Bool)
    (fulldir : String) (resp : Response) (st : AppSt) (f : FeedItem) :
    Except Unit AppSt :=
  match f.getfilename with
  | none => .error ()
  | some title =>
      let fname := pathJoin fulldir title
      match pd f.pubdate with
      | none => .error ()
      | some t =>
          let df : DownloadedFile := ⟨title, fname, t, 0⟩
          if df.isinlist st.downloaded then
            .ok st
          else
            let out := f.download fulldir verbose tell resp st.files
            .ok { downloaded := st.downloaded ++ [df],
                  dconfig := addtodconfig st.dconfig df,
                  writes := st.writes + 1,
                  files := out.files,
                  net := st.net + out.netCalls }

/-- One section of the ledger store `downloaded.ini` as iterated by
`App.cleanolder`: its name, its `path` field, and its `time` field
(`none` models a section without a `time` key, such as the implicit
`DEFAULT` section that configparser iteration yields first). -/
structure DSection where
  name : String
  path : String
  time : Option Int
deriving Repr, DecidableEq

/-- Ledger-side state touched by `App.cleanolder`: the in-memory
`dconfig` sections, the filesystem, and the number of rewrites of the
`downloaded.ini` backing file. -/
structure LedgerSt where
  sections : List DSection
  files : List String
  writes : Nat
deriving Repr, DecidableEq

/-- Result of a `cleanolder` call: `ok` when the loop runs to
completion, `err` when it raises — the carried state is the in-memory /
filesystem state at that point. -/
inductive CleanResult where
  | ok (σ : LedgerSt)
  | err (σ : LedgerSt)
deriving Repr, DecidableEq

/-- The `(t - st) < 0` test of pget.py:327-329 on a section that has a
`time` key. -/
def isOld (cutoff : Int) (s : DSection) : Bool :=
  match s.time with
  | some t => decide (t - cutoff < 0)
  | none => false

/-- `App.cleanolder` (pget.py:320-338).  `float(days) == 0.0` returns
immediately.  Otherwise the loop `for secstr in self.dconfig` iterates
the parser itself; sections without a `time` key (e.g. `DEFAULT`) are
skipped.  At the first section older than the cutoff the code unlinks
its file if present and calls `remove_section` — but that mutates the
dict backing the active iterator, so the next iteration step raises
`RuntimeError` (dictionary changed size during iteration), which
nothing catches: the loop aborts with the file already deleted and the
section already dropped in memory, and the `if cleaned:` rewrite of the
backing file is never reached.  When no section is old enough the loop
completes with `cleaned` still false and nothing is rewritten. -/
def cleanolder (days now : Int) (σ : LedgerSt) : CleanResult :=
  if days = 0 then .ok σ
  else
    let st := now - 24 * 60 * 60 * days
    match σ.sections.find? (isOld st) with
    | none => .ok σ
    | some s =>
        .err { sections := σ.sections.eraseP (fun x => x.name == s.name),
               files := σ.files.erase s.path,
               writes := σ.writes }

/-- `dormolderaction` (pget.py:373-377): one `cleanolder` call per
section of the podcast configuration — the section contents are read
into `sec` and then ignored, so only the number of sections matters.
An exception escaping `cleanolder` aborts the remaining iterations. -/
def dormolderaction (psections : List String) (rmolder now : Int)
    (σ : LedgerSt) : CleanResult :=
  match psections with
  | [] => .ok σ
  | _ :: rest =>
      match cleanolder rmolder now σ with
      | .ok σ2 => dormolderaction rest rmolder now σ2
      | .err σ2 => .err σ2

/-- A podcast configuration section: key-value pairs. -/
abbrev PSection : Type := List (String × String)

/-- `'k' in sec` on a configparser section proxy. -/
def hasKey (sec : PSection) (k : String) : Bool :=
  (List.lookup k sec).isSome

/-- The arguments handed to `Feed.__init__` by the poll loop
(pget.py:400): `sec['url'], sec['dpath'], sec['dir'], sec['days']`. -/
structure FeedCfg where
  url : String
  dpath : String
  ddir : String
  days : String
deriving Repr, DecidableEq

/-- One iteration of the `__main__` poll loop over podcast sections
(pget.py:395-402): the `valid` guard checks `title`, `url`, `dpath`
and `dir` (pget.py:397-398) and skips the section when one is missing
(`.ok none`); when the guard passes, `Feed(sec['url'], sec['dpath'],
sec['dir'], sec['days'])` performs four unguarded subscript lookups, of
which only `sec['days']` can still fail — a missing `days` key raises
an uncaught `KeyError` (`.error ()`). -/
def processSection (sec : PSection) : Except Unit (Option FeedCfg) :=
  if hasKey sec "title" && hasKey sec "url" && hasKey sec "dpath"
      && hasKey sec "dir" then
    match List.lookup "url" sec, List.lookup "dpath" sec,
        List.lookup "dir" sec, List.lookup "days" sec with
    | some u, some p, some d, some dy => .ok (some ⟨u, p, d, dy⟩)
    | _, _, _, _ => .error ()
  else .ok none

/-- The whole poll loop of `__main__` (pget.py:395-402) restricted to
feed construction: sections are processed in order, skipped sections
contribute nothing, and an uncaught `KeyError` aborts the loop, leaving
the remaining sections unprocessed. -/
def pollSections : List PSection → Except Unit (List FeedCfg)
  | [] => .ok []
  | s :: rest =>
      match processSection s with
      | .error e => .error e
      | .ok none => pollSections rest
      | .ok (some f) =>
          match pollSections rest with
          | .error e => .error e
          | .ok fs => .ok (f :: fs)

/-! ## Helper lemmas -/

/-- A final destination path never coincides with its temp-file path:
the two differ in length by the twelve characters of `.downloading`. -/
theorem pathJoin_ne_tmp (p f : String) :
    pathJoin p f ≠ pathJoin p (f ++ ".downloading") := by
  intro h
  have h2 := congrArg String.length h
  simp only [pathJoin, String.length_append] at h2
  have h3 : (".downloading" : String).length = 12 := rfl
  omega

/-- A path is present after `addFile` puts it there. -/
theorem mem_addFile_self (l : List String) (p : String) : p ∈ addFile l p := by
  unfold addFile
  split
  · assumption
  · exact List.mem_cons_self p l

/-- Membership after `addFile`. -/
theorem mem_addFile_iff (l : List String) (p q : String) :
    q ∈ addFile l p ↔ q = p ∨ q ∈ l := by
  unfold addFile
  split
  · rename_i hp
    constructor
    · exact fun h => Or.inr h
    · rintro (rfl | h)
      · exact hp
      · exact h
  · exact List.mem_cons

/-! ## Claim theorems -/

/-- C1: evaluation of `DownloadedFile.__eq__` at concrete records.  Two
records whose titles and paths BOTH differ still compare equal whenever
their times are within the tolerance sum, because the line computing
the title-and-path conjunction stores into `ret` and the next line
overwrites `ret` with the time-window test (pget.py:218-219) — the
spec describes the intended conjunction, the code drops it.  The time
window itself behaves as described: with tolerance sum 4, a difference
of 5 is unequal and a difference of 4 is equal. -/
theorem C1_eq_ignores_title_and_path :
    DownloadedFile.eq ⟨"a", "p", 0, 0⟩ ⟨"b", "q", 0, 0⟩ = true
    ∧ DownloadedFile.eq ⟨"a", "p", 0, 2⟩ ⟨"a", "p", 5, 2⟩ = false
    ∧ DownloadedFile.eq ⟨"a", "p", 0, 2⟩ ⟨"a", "p", 4, 2⟩ = true := by
  refine ⟨rfl, rfl, rfl⟩

/-- C8: `App.cleanolder` with a retention window of 0 days returns
before touching anything (pget.py:321-322): the filesystem, the ledger
sections and the backing-file write count are all unchanged. -/
theorem C8_zero_days_noop (now : Int) (σ : LedgerSt) :
    cleanolder 0 now σ = CleanResult.ok σ := by
  simp [cleanolder]

/-- C10: a podcast section carrying `title`, `url`, `dpath` and `dir`
but no `days` key passes the `valid` guard (pget.py:397-399) and then
`Feed(sec['url'], sec['dpath'], sec['dir'], sec['days'])` hits the
unguarded `sec['days']` lookup (pget.py:400): the section is neither
skipped nor defaulted, and the uncaught `KeyError` aborts the whole
poll loop, whatever sections follow. -/
theorem C10_missing_days_aborts (sec : PSection) (rest : List PSection)
    (h1 : hasKey sec "title" = true) (h2 : hasKey sec "url" = true)
    (h3 : hasKey sec "dpath" = true) (h4 : hasKey sec "dir" = true)
    (h5 : List.lookup "days" sec = none) :
    processSection sec = .error () ∧ pollSections (sec :: rest) = .error () := by
  obtain ⟨u, hu⟩ := Option.isSome_iff_exists.mp h2
  obtain ⟨p, hp⟩ := Option.isSome_iff_exists.mp h3
  obtain ⟨d, hd⟩ := Option.isSome_iff_exists.mp h4
  have hps : processSection sec = .error () := by
    unfold processSection
    rw [h1, h2, h3, h4, hu, hp, hd, h5]
    rfl
  refine ⟨hps, ?_⟩
  simp [pollSections, hps]

/-- C10 witness: a section with the four keys but no `days`, followed
by a fully complete section, still aborts the loop before the complete
section is reached. -/
theorem C10_missing_days_aborts_witness :
    processSection [("title", "t"), ("url", "u"), ("dpath", "p"), ("dir", "d")] =
      .error ()
    ∧ pollSections
        [[("title", "t"), ("url", "u"), ("dpath", "p"), ("dir", "d")],
         [("title", "t2"), ("url", "u2"), ("dpath", "p2"), ("dir", "d2"),
          ("days", "7")]] = .error () :=
  C10_missing_days_aborts
    [("title", "t"), ("url", "u"), ("dpath", "p"), ("dir", "d")]
    [[("title", "t2"), ("url", "u2"), ("dpath", "p2"), ("dir", "d2"),
      ("days", "7")]]
    rfl rfl rfl rfl rfl

/-- C4: for a streamed download (final file not yet present, status
200, `Content-Length` declared), the temp file is renamed to the final
name exactly when the total streamed byte count equals the declared
`Content-Length` (pget.py:110-111); on any mismatch the filesystem
gains only the `.downloading` temp artifact and no file exists at the
final destination path. -/
theorem C4_rename_iff_length_match (it : FeedItem) (path u : String)
    (v t : Bool) (resp : Response) (files : List String) (L : Nat)
    (hu : it.url = some u) (hc : resp.code = 200)
    (hL : resp.contentLength = some L)
    (hnew : pathJoin path (lastSegment u) ∉ files) :
    (pathJoin path (lastSegment u) ∈ (it.download path v t resp files).files
      ↔ streamTotal resp.chunks = L)
    ∧ (streamTotal resp.chunks ≠ L →
        (it.download path v t resp files).files =
          addFile files (pathJoin path (lastSegment u ++ ".downloading"))) := by
  by_cases hsz : streamTotal resp.chunks = L
  · have hdl : (it.download path v t resp files).files =
        addFile
          ((addFile files (pathJoin path (lastSegment u ++ ".downloading"))).erase
            (pathJoin path (lastSegment u ++ ".downloading")))
          (pathJoin path (lastSegment u)) := by
      unfold FeedItem.download
      rw [FeedItem.getfilename, hu]
      simp [FeedItem.shoulddownload, hnew, hc, hL, hsz]
    rw [hdl]
    refine ⟨⟨fun _ => hsz, fun _ => mem_addFile_self _ _⟩, fun hne => absurd hsz hne⟩
  · have hdl : (it.download path v t resp files).files =
        addFile files (pathJoin path (lastSegment u ++ ".downloading")) := by
      unfold FeedItem.download
      rw [FeedItem.getfilename, hu]
      simp [FeedItem.shoulddownload, hnew, hc, hL, hsz]
    rw [hdl]
    refine ⟨⟨fun hmem => ?_, fun h => absurd h hsz⟩, fun _ => rfl⟩
    rcases (mem_addFile_iff _ _ _).mp hmem with h | h
    · exact absurd h (pathJoin_ne_tmp path (lastSegment u))
    · exact absurd h hnew

/-- C4 witness: a 200 response declaring 5 bytes but streaming only 4
into `dl/a.mp3.downloading` for the item whose media URL ends in
`a.mp3`. -/
theorem C4_rename_iff_length_match_witness :
    ((pathJoin "dl" (lastSegment "http://h/a.mp3") ∈
        (FeedItem.download ⟨"T", "", "d1", none, some "http://h/a.mp3", none⟩
          "dl" false false ⟨200, some 5, [2, 2]⟩ []).files
      ↔ streamTotal [2, 2] = 5)
    ∧ (streamTotal [2, 2] ≠ 5 →
        (FeedItem.download ⟨"T", "", "d1", none, some "http://h/a.mp3", none⟩
          "dl" false false ⟨200, some 5, [2, 2]⟩ []).files =
          addFile [] (pathJoin "dl" (lastSegment "http://h/a.mp3" ++ ".downloading")))) :=
  C4_rename_iff_length_match ⟨"T", "", "d1", none, some "http://h/a.mp3", none⟩
    "dl" "http://h/a.mp3" false false ⟨200, some 5, [2, 2]⟩ [] 5
    rfl rfl rfl (by simp)

/-- C5: when the derived filename already exists in the destination
directory, `download` takes the early-return branch (pget.py:75-78): no
network request is issued, the filesystem is unchanged, and the only
output is the already-downloaded notice (printed when verbose). -/
theorem C5_existing_file_skips (it : FeedItem) (path u : String)
    (v t : Bool) (resp : Response) (files : List String)
    (hu : it.url = some u)
    (hex : pathJoin path (lastSegment u) ∈ files) :
    it.download path v t resp files =
      { files := files, netCalls := 0,
        msgs := if v then [lastSegment u ++ " already downloaded"] else [] } := by
  unfold FeedItem.download
  rw [FeedItem.getfilename, hu]
  simp only [Option.map_some]
  simp [FeedItem.shoulddownload, hex]

/-- C5 witness: `dl/a.mp3` already exists, so the download of the item
whose media URL ends in `a.mp3` touches nothing and issues no request. -/
theorem C5_existing_file_skips_witness :
    FeedItem.download ⟨"T", "", "d1", none, some "http://h/a.mp3", none⟩
        "dl" true false ⟨200, some 5, [2, 2]⟩ ["dl/a.mp3"] =
      { files := ["dl/a.mp3"], netCalls := 0,
        msgs := if true then [lastSegment "http://h/a.mp3" ++ " already downloaded"]
          else [] } :=
  C5_existing_file_skips ⟨"T", "", "d1", none, some "http://h/a.mp3", none⟩
    "dl" "http://h/a.mp3" true false ⟨200, some 5, [2, 2]⟩ ["dl/a.mp3"]
    rfl (by simp [pathJoin, lastSegment]; rfl)

/-- Media item used in the C2 scenarios: its URL derives the filename
`a.mp3`. -/
def itemC2 : FeedItem := ⟨"T", "", "d1", none, some "http://h/a.mp3", none⟩

/-- App state for the C2 counterexample: `dl/a.mp3` already exists on
disk, the in-memory cache and the ledger are empty. -/
def stC2 : AppSt := ⟨[], [], 0, ["dl/a.mp3"], 0⟩

/-- C2 counterexample: the item is not in the cache, so the handlefeed
loop body runs `download` — which returns immediately because
`dl/a.mp3` already exists (`net` stays 0, the filesystem is unchanged,
i.e. the download was skipped) — and then unconditionally appends a
`DownloadedFile`, adds a ledger section, and rewrites the backing file
(`writes` becomes 1).  This refutes the claim that a record is created
only when a download completes successfully and that a skipped item
gains no ledger entry. -/
theorem C2_skipped_item_gains_record :
    handleItem (fun _ => some 100) false false "dl" ⟨200, some 0, []⟩ stC2 itemC2 =
      .ok ⟨[⟨"a.mp3", "dl/a.mp3", 100, 0⟩], [("a.mp3", "dl/a.mp3", 100)], 1,
        ["dl/a.mp3"], 0⟩ := rfl

/-- C2 (amended): the handlefeed loop body appends a record, adds a
ledger section and rewrites the backing file for every item whose
tolerant `isinlist` lookup misses — regardless of whether `download`
succeeded, failed or was skipped, since `download` reports nothing —
and leaves the state untouched for an item the lookup finds. -/
theorem C2_record_regardless_of_outcome (pd : String → Option Int)
    (v t : Bool) (dir : String) (resp : Response) (st : AppSt)
    (f : FeedItem) (u : String) (tm : Int)
    (hu : f.url = some u) (hp : pd f.pubdate = some tm) :
    (DownloadedFile.isinlist
        ⟨lastSegment u, pathJoin dir (lastSegment u), tm, 0⟩ st.downloaded = false →
      handleItem pd v t dir resp st f =
        .ok { downloaded :=
                st.downloaded ++ [⟨lastSegment u, pathJoin dir (lastSegment u), tm, 0⟩],
              dconfig := addtodconfig st.dconfig
                ⟨lastSegment u, pathJoin dir (lastSegment u), tm, 0⟩,
              writes := st.writes + 1,
              files := (f.download dir v t resp st.files).files,
              net := st.net + (f.download dir v t resp st.files).netCalls })
    ∧ (DownloadedFile.isinlist
        ⟨lastSegment u, pathJoin dir (lastSegment u), tm, 0⟩ st.downloaded = true →
      handleItem pd v t dir resp st f = .ok st) := by
  constructor
  · intro h
    unfold handleItem
    rw [FeedItem.getfilename, hu]
    simp [hp, h]
  · intro h
    unfold handleItem
    rw [FeedItem.getfilename, hu]
    simp [hp, h]

/-- C2 witness: with an empty cache and a 200 response streaming the
declared 4 bytes, the record for `a.mp3` is appended and the ledger
rewritten once. -/
theorem C2_record_regardless_of_outcome_witness :
    handleItem (fun _ => some 100) false false "dl" ⟨200, some 4, [2, 2]⟩
        ⟨[], [], 0, [], 0⟩ itemC2 =
      .ok ⟨[⟨"a.mp3", "dl/a.mp3", 100, 0⟩], [("a.mp3", "dl/a.mp3", 100)], 1,
        ["dl/a.mp3"], 1⟩ :=
  (C2_record_regardless_of_outcome (fun _ => some 100) false false "dl"
    ⟨200, some 4, [2, 2]⟩ ⟨[], [], 0, [], 0⟩ itemC2 "http://h/a.mp3" 100
    rfl rfl).1 rfl

/-- C6: `Feed.getnewer`, when every publish date parses, keeps exactly
the items whose epoch time is strictly greater than
`now - days * 86400` (pget.py:132-135), preserves their input order
(the result is a sublist of the input), excludes an item dated exactly
`now - 8` days under a 7-day window, and includes one dated
`now - 6` days. -/
theorem C6_recency_filter (pd : String → Option Int) (days now : Int)
    (items : List FeedItem)
    (hall : ∀ f ∈ items, (pd f.pubdate).isSome = true) :
    getnewer pd days now items =
      .ok (items.filter (fun f => decide (now - days * 86400 < (pd f.pubdate).getD 0)))
    ∧ (∀ l, getnewer pd days now items = .ok l → l.Sublist items)
    ∧ (∀ f l, getnewer pd 7 now items = .ok l →
        pd f.pubdate = some (now - 8 * 86400) → f ∉ l)
    ∧ (∀ f l, getnewer pd 7 now items = .ok l → f ∈ items →
        pd f.pubdate = some (now - 6 * 86400) → f ∈ l) := by
  have hany : items.any (fun f => (pd f.pubdate).isNone) = false := by
    rw [List.any_eq_false]
    intro f hf
    cases h : pd f.pubdate with
    | none => exact absurd (hall f hf) (by rw [h]; simp)
    | some x => simp
  have hkey : ∀ d : Int, getnewer pd d now items =
      .ok (items.filter (fun f => decide (now - d * 86400 < (pd f.pubdate).getD 0))) := by
    intro d
    unfold getnewer
    rw [hany]
    have harith : d * 24 * 60 * 60 = d * 86400 := by ring
    simp [harith]
  refine ⟨hkey days, ?_, ?_, ?_⟩
  · intro l hl
    rw [hkey days] at hl
    cases hl
    exact List.filter_sublist items
  · intro f l hl hf hmem
    rw [hkey 7] at hl
    cases hl
    have h2 := (List.mem_filter.mp hmem).2
    rw [hf] at h2
    simp only [Option.getD_some, decide_eq_true_eq] at h2
    omega
  · intro f l hl hfi hf
    rw [hkey 7] at hl
    cases hl
    refine List.mem_filter.mpr ⟨hfi, ?_⟩
    rw [hf]
    simp only [Option.getD_some, decide_eq_true_eq]
    omega

/-- Publish-date collaborator for the C6 witness: `old` parses to
8 days before epoch 0, everything else to 6 days before. -/
def pdC6 : String → Option Int :=
  fun s => if s = "old" then some (-691200) else some (-518400)

/-- Items for the C6 witness. -/
def itemsC6 : List FeedItem :=
  [⟨"O", "", "old", none, some "http://h/o.mp3", none⟩,
   ⟨"N", "", "new", none, some "http://h/n.mp3", none⟩]

/-- C6 witness: with `now = 0` and a 7-day window the filter keeps
exactly the 6-day-old item. -/
theorem C6_recency_filter_witness :
    getnewer pdC6 7 0 itemsC6 =
      .ok (itemsC6.filter
        (fun f => decide ((0 : Int) - 7 * 86400 < (pdC6 f.pubdate).getD 0))) :=
  (C6_recency_filter pdC6 7 0 itemsC6 (by decide)).1

/-- An `item` whose `media` content element is present (namespace `NS`
matches the declared map) but has no `url` attribute. -/
def xNoUrl : XItem :=
  ⟨some "T", some "D", some "Mon, 01 Jan 2001 00:00:00", none,
   [⟨"NS", none, some "video/mp4"⟩]⟩

/-- C7 counterexample: `Feed.parsexml` guards only on the presence of
the namespaced `content` element (pget.py:199), not on its `url`
attribute, so an item whose content element lacks `url` is appended as
a `FeedItem` whose media URL is absent — the item collection then
contains a `FeedItem` with no media URL, refuting the claimed
invariant. -/
theorem C7_item_without_url_is_added :
    parsexmlItems "http://feed" [("media", "NS")] [xNoUrl] =
      [⟨"T", "D", "Mon, 01 Jan 2001 00:00:00", none, none, some "video/mp4"⟩] := rfl

/-- C7 (amended): what the parser gate really checks — an item with no
resolvable media content element is dropped entirely (title,
description and date included); an item whose resolved content element
exists is added with exactly that element attributes as its media URL
and type, even when the `url` attribute is absent; and every parsed
`FeedItem` arises from some input item whose content element resolved. -/
theorem C7_media_element_gate (feedUrl : String)
    (nsmap : List (String × String)) (x : XItem) :
    (findContent ((nsmap.lookup "media").getD "") x.contents = none →
      parseItem feedUrl nsmap x = none)
    ∧ (∀ m, findContent ((nsmap.lookup "media").getD "") x.contents = some m →
      parseItem feedUrl nsmap x =
        some ⟨x.title.getD (feedUrl ++ "(Unknown Title)"), x.descr.getD "",
          x.pubDate.getD "Thu, 01 Jan 1970 02:00:00", x.guid, m.url, m.mtype⟩)
    ∧ (∀ xitems (f : FeedItem), f ∈ parsexmlItems feedUrl nsmap xitems →
      ∃ x2 ∈ xitems, parseItem feedUrl nsmap x2 = some f) := by
  refine ⟨?_, ?_, ?_⟩
  · intro h
    simp only [parseItem]
    rw [h]
  · intro m h
    simp only [parseItem]
    rw [h]
  · intro xitems f hf
    exact List.mem_filterMap.mp hf

/-- C7 witness: an item with no content element at all is dropped. -/
theorem C7_media_element_gate_witness :
    parseItem "u" [] ⟨some "T", none, none, none, []⟩ = none :=
  (C7_media_element_gate "u" [] ⟨some "T", none, none, none, []⟩).1 rfl

/-- Publish-date collaborator for the C3 scenario: only the string
`bad` fails to parse. -/
def pdC3 : String → Option Int := fun s => if s = "bad" then none else some 100

/-- A well-formed media content element in namespace `NS`. -/
def mediaC3 : MediaElem := ⟨"NS", some "http://h/f.mp3", some "audio/mpeg"⟩

/-- Feed whose second item carries an unparseable `pubDate`. -/
def badFeedC3 : FeedSpec :=
  ⟨"http://badfeed", [("media", "NS")],
   [⟨some "A", none, some "bad", none, [mediaC3]⟩,
    ⟨some "B", none, some "ok", none, [mediaC3]⟩], 7⟩

/-- A feed all of whose items parse. -/
def goodFeedC3 : FeedSpec :=
  ⟨"http://goodfeed", [("media", "NS")],
   [⟨some "B", none, some "ok", none, [mediaC3]⟩], 7⟩

/-- C3 counterexample: polling the feed with the unparseable `pubDate`
raises an error that nothing handles, so the run aborts and the
following healthy feed is never processed — refuting the claim that
the failure is handled and fatal only to that feed poll cycle, with
the run continuing to the next feed. -/
theorem C3_bad_date_aborts_run :
    pollRun pdC3 0 [badFeedC3, goodFeedC3] = .error () := rfl

/-- C3 (amended): an item whose `pubDate` fails to parse makes the poll
run raise an uncaught `TypeError` — in the `sorted` key comparison of
`Feed.parsexml` (pget.py:206) when the feed has at least two items,
otherwise in the `time.mktime` call of `Feed.getnewer` (pget.py:135) —
aborting the entire run, not just that feed poll cycle.  The date is
indeed not coerced to the epoch sentinel: a parsed item pubdate is the
original string whenever the element was present, and the sentinel
appears only for a missing `pubDate` element. -/
theorem C3_parse_error_unhandled (pd : String → Option Int) (now : Int)
    (f : FeedSpec) (rest : List FeedSpec) :
    ((∃ it ∈ parsexmlItems f.url f.nsmap f.xitems, pd it.pubdate = none) →
      pollRun pd now (f :: rest) = .error ())
    ∧ (∀ feedUrl nsmap x i, parseItem feedUrl nsmap x = some i →
      i.pubdate = x.pubDate.getD "Thu, 01 Jan 1970 02:00:00") := by
  constructor
  · rintro ⟨it, hit, hpd⟩
    have hany : (parsexmlItems f.url f.nsmap f.xitems).any
        (fun g => (pd g.pubdate).isNone) = true := by
      rw [List.any_eq_true]
      exact ⟨it, hit, by rw [hpd]; rfl⟩
    have hproc : processFeed pd now f = .error () := by
      simp only [processFeed]
      by_cases hlen : 2 ≤ (parsexmlItems f.url f.nsmap f.xitems).length
      · have hsort : sortItemsByDate pd (parsexmlItems f.url f.nsmap f.xitems) =
            .error () := by
          unfold sortItemsByDate
          rw [hany]
          simp [hlen]
        rw [hsort]
        rfl
      · have hsort : sortItemsByDate pd (parsexmlItems f.url f.nsmap f.xitems) =
            .ok (((parsexmlItems f.url f.nsmap f.xitems).mergeSort
              (fun a b => decide ((pd a.pubdate).getD 0 ≤ (pd b.pubdate).getD 0))).reverse) := by
          unfold sortItemsByDate
          simp [hlen]
        rw [hsort]
        have hmem : it ∈ ((parsexmlItems f.url f.nsmap f.xitems).mergeSort
            (fun a b => decide ((pd a.pubdate).getD 0 ≤ (pd b.pubdate).getD 0))).reverse := by
          rw [List.mem_reverse, List.mem_mergeSort]
          exact hit
        have hany2 : (((parsexmlItems f.url f.nsmap f.xitems).mergeSort
            (fun a b => decide ((pd a.pubdate).getD 0 ≤ (pd b.pubdate).getD 0))).reverse).any
            (fun g => (pd g.pubdate).isNone) = true := by
          rw [List.any_eq_true]
          exact ⟨it, hmem, by rw [hpd]; rfl⟩
        show getnewer pd f.days now _ = .error ()
        unfold getnewer
        rw [hany2]
        rfl
    unfold pollRun
    rw [hproc]
  · intro feedUrl nsmap x i h
    simp only [parseItem] at h
    revert h
    split
    · intro h
      cases h
    · intro h
      cases h
      rfl

/-- C3 witness: the run over just the bad feed aborts, and a parsed
item with a present `pubDate` keeps the original string. -/
theorem C3_parse_error_unhandled_witness :
    pollRun pdC3 0 [badFeedC3] = .error () :=
  (C3_parse_error_unhandled pdC3 0 badFeedC3 []).1
    ⟨⟨"A", "", "bad", none, some "http://h/f.mp3", some "audio/mpeg"⟩,
     by decide, by decide⟩

/-- Ledger with one record older than any small cutoff. -/
def ledgerC9 : LedgerSt := ⟨[⟨"old", "p", some 0⟩], ["p"], 0⟩

/-- C9 counterexample: with two configured podcast sections and one
removable record, the first `cleanolder` scan deletes the file and the
in-memory section and then raises `RuntimeError` in its mutated-dict
iteration (pget.py:325-332), so the action aborts: the scan is not
repeated identically twice, and the backing file is never rewritten
(`writes` stays 0). -/
theorem C9_first_scan_aborts :
    dormolderaction ["a", "b"] 7 1000000 ledgerC9 =
      .err ⟨[], [], 0⟩ := rfl

/-- C9 (amended): `dormolderaction` runs one `cleanolder` scan per
configured podcast section (the section contents are ignored): with
zero sections nothing at all happens, whatever the retention window;
when a scan is a no-op the identical scan repeats once per section and
the state is returned unchanged; and a scan that mutates the ledger
raises out of the loop, aborting the action with the remaining
sections unvisited. -/
theorem C9_scan_per_section (ps : List String) (days now : Int)
    (σ : LedgerSt) :
    dormolderaction [] days now σ = .ok σ
    ∧ (cleanolder days now σ = .ok σ → dormolderaction ps days now σ = .ok σ)
    ∧ (∀ σ2, cleanolder days now σ = .err σ2 → ps ≠ [] →
        dormolderaction ps days now σ = .err σ2) := by
  refine ⟨rfl, ?_, ?_⟩
  · intro h
    induction ps with
    | nil => rfl
    | cons a rest ih =>
        unfold dormolderaction
        rw [h]
        exact ih
  · intro σ2 h hne
    cases ps with
    | nil => exact absurd rfl hne
    | cons a rest =>
        unfold dormolderaction
        rw [h]

/-- C9 witness: three sections, no record old enough — three identical
no-op scans leave the ledger untouched. -/
theorem C9_scan_per_section_witness :
    dormolderaction ["a", "b", "c"] 7 1000 ⟨[⟨"s", "p", some 999999⟩], ["p"], 0⟩ =
      .ok ⟨[⟨"s", "p", some 999999⟩], ["p"], 0⟩ :=
  (C9_scan_per_section ["a", "b", "c"] 7 1000
    ⟨[⟨"s", "p", some 999999⟩], ["p"], 0⟩).2.1 (by decide)

end Pget
